import Mathlib

/-!
Verification of the media-organizer pipeline (src/media_organizer.py).

The Python source is shallowly embedded below. Pure helpers (parse_filename,
clean_name, the path arithmetic) become Lean functions on strings modelled as
lists of characters. The effectful functions (search_media, get_movie_details,
get_tv_show_details, process_file, start_monitoring) are embedded as functions
from an explicit environment, which fixes the outcome of each external HTTP
request and of the file move, to a list of emitted effects (log lines, HTTP
calls, mkdir, move) together with an Except value recording whether a Python
exception escapes the call.

Modelling notes, faithful to the source:
- Line 31 of the source calls response.raise_for_for_status(), which is not a
  method of a requests Response; at runtime that raises AttributeError, which
  is not a requests.RequestException and therefore escapes the try/except in
  search_media.  The embedding keeps this behaviour.
- Log messages that interpolate a caught exception object are modelled by
  their static text (the exception text is dropped).
- Python regular-expression search for the two fixed patterns of the source is
  implemented directly with leftmost-match, greedy-with-backtracking
  semantics; the digit class is modelled as the ASCII digits.
-/

namespace MediaOrganizer

/-! ### Python string and path primitives -/

/-- ASCII digit test, modelling the regex class \d on ASCII input. -/
def pyIsDigit (c : Char) : Bool :=
  '0' ≤ c && c ≤ '9'

/-- ASCII lowercasing of one character, modelling str.lower on ASCII input. -/
def asciiLowerChar (c : Char) : Char :=
  if 'A' ≤ c ∧ c ≤ 'Z' then Char.ofNat (c.toNat + 32) else c

/-- ASCII lowercasing of a string, modelling str.lower on ASCII input. -/
def asciiLower (s : String) : String :=
  String.mk (s.data.map asciiLowerChar)

/-- The characters stripped by Python str.strip() with no argument. -/
def pyIsSpace (c : Char) : Bool :=
  c = ' ' || c = '\t' || c = '\n' || c = '\r' || c = '\x0b' || c = '\x0c'

/-- Python str.strip(): remove leading and trailing whitespace. -/
def pyStrip (s : String) : String :=
  String.mk (((s.data.dropWhile pyIsSpace).reverse.dropWhile pyIsSpace).reverse)

/-- Python str.replace of every dot by a space, as on lines 70, 78 and 82. -/
def replaceDots (s : String) : String :=
  String.mk (s.data.map (fun c => if c = '.' then ' ' else c))

/-- Python slicing s[:n]. -/
def strTakeN (n : Nat) (s : String) : String :=
  String.mk (s.data.take n)

/-- os.path.basename on a POSIX path: everything after the last slash. -/
def basename (p : String) : String :=
  String.mk ((p.data.reverse.takeWhile (fun c => c != '/')).reverse)

/-- Index of the last dot of the list, if any. -/
def lastDotIdx (cs : List Char) : Option Nat :=
  (List.range cs.length).foldl
    (fun acc j => if cs.getD j ' ' = '.' then some j else acc) none

/-- os.path.splitext on a slash-free name (process_file always applies it to a
basename): split at the last dot unless all preceding characters are dots. -/
def splitext (s : String) : String × String :=
  match lastDotIdx s.data with
  | some k =>
      if (s.data.take k).any (fun c => c != '.') then
        (String.mk (s.data.take k), String.mk (s.data.drop k))
      else (s, "")
  | none => (s, "")

/-- os.path.join of two POSIX path components. -/
def pyJoin (a b : String) : String :=
  if b.data.head? = some '/' then b
  else if a = "" then b
  else if a.data.getLast? = some '/' then a ++ b
  else a ++ "/" ++ b

/-- Python str.zfill for the unsigned strings it is applied to here. -/
def zfill (w : Nat) (s : String) : String :=
  if w ≤ s.length then s else String.mk (List.replicate (w - s.length) '0') ++ s

/-- Numeric value of a list of ASCII digits, modelling int() on a digit group. -/
def digitsVal (ds : List Char) : Nat :=
  ds.foldl (fun a c => a * 10 + (c.toNat - '0'.toNat)) 0

/-! ### The two regular expressions of parse_filename -/

/-- Character class [sS] of the season/episode regex. -/
def isSE (c : Char) : Bool :=
  c = 's' || c = 'S'

/-- Character class [eE] of the season/episode regex. -/
def isE (c : Char) : Bool :=
  c = 'e' || c = 'E'

/-- Match the tail pattern [eE](\d{1,2}) at the head of the list.  The digit
group is greedy: two digits are preferred over one. -/
def matchEp : List Char → Option Nat
  | e :: d1 :: d2 :: _ =>
      if isE e then
        if pyIsDigit d1 && pyIsDigit d2 then some (digitsVal [d1, d2])
        else if pyIsDigit d1 then some (digitsVal [d1])
        else none
      else none
  | [e, d1] => if isE e && pyIsDigit d1 then some (digitsVal [d1]) else none
  | _ => none

/-- Match [sS](\d{1,2})[eE](\d{1,2}) at the head of the list, with greedy
season digits and backtracking from two season digits to one, returning the
two captured integers. -/
def matchSEAt : List Char → Option (Nat × Nat)
  | s0 :: d1 :: d2 :: rest2 =>
      if isSE s0 then
        if pyIsDigit d1 && pyIsDigit d2 then
          match matchEp rest2 with
          | some ep => some (digitsVal [d1, d2], ep)
          | none =>
              match matchEp (d2 :: rest2) with
              | some ep => some (digitsVal [d1], ep)
              | none => none
        else if pyIsDigit d1 then
          match matchEp (d2 :: rest2) with
          | some ep => some (digitsVal [d1], ep)
          | none => none
        else none
      else none
  | _ => none

/-- re.search for the season/episode pattern: try every position left to
right; the accumulated index is the start of the leftmost match. -/
def findSEAux : Nat → List Char → Option (Nat × Nat × Nat)
  | _, [] => none
  | i, c :: rest =>
      match matchSEAt (c :: rest) with
      | some se => some (i, se.1, se.2)
      | none => findSEAux (i + 1) rest

/-- Leftmost season/episode match of the whole list: start index, season and
episode capture values. -/
def findSE (cs : List Char) : Option (Nat × Nat × Nat) :=
  findSEAux 0 cs

/-- Match \d{4} at the head of the list, returning the four digit characters. -/
def take4digits : List Char → Option (List Char)
  | a :: b :: c :: d :: _ =>
      if pyIsDigit a && pyIsDigit b && pyIsDigit c && pyIsDigit d then
        some [a, b, c, d]
      else none
  | _ => none

/-- Match the year pattern \(?(\d{4})\)? at the head of the list.  If the
optional opening parenthesis is consumed but no four digits follow, the
backtracked alternative (a digit at the parenthesis position) also fails. -/
def matchYearAt : List Char → Option (List Char)
  | [] => none
  | c :: rest => if c = '(' then take4digits rest else take4digits (c :: rest)

/-- re.search for the year pattern: leftmost match position and captured
digits. -/
def findYearAux : Nat → List Char → Option (Nat × String)
  | _, [] => none
  | i, c :: rest =>
      match matchYearAt (c :: rest) with
      | some ds => some (i, String.mk ds)
      | none => findYearAux (i + 1) rest

/-- Leftmost year match of the whole list. -/
def findYear (cs : List Char) : Option (Nat × String) :=
  findYearAux 0 cs

/-! ### parse_filename and clean_name -/

/-- Result of parse_filename: the dict with title/season/episode, the dict
with title/year, or the dict with only a title. -/
inductive ParsedInfo where
  | episode : String → Nat → Nat → ParsedInfo
  | movie : String → String → ParsedInfo
  | titleOnly : String → ParsedInfo

/-- The title entry present in every dict returned by parse_filename. -/
def ParsedInfo.title : ParsedInfo → String
  | .episode t _ _ => t
  | .movie t _ => t
  | .titleOnly t => t

/-- The normalization applied to the text before the matched token on lines
70, 78 and 82: replace dots by spaces and strip (the whole stem was already
lowercased on line 63). -/
def normTitle (s : String) : String :=
  pyStrip (replaceDots s)

/-- parse_filename (source lines 61-82): lowercase the stem, try the
season/episode pattern first, then the year pattern, else return the whole
normalized stem as title. -/
def parse_filename (filename0 : String) : ParsedInfo :=
  let filename := asciiLower filename0
  match findSE filename.data with
  | some r => .episode (normTitle (strTakeN r.1 filename)) r.2.1 r.2.2
  | none =>
      match findYear filename.data with
      | some r => .movie (normTitle (strTakeN r.1 filename)) r.2
      | none => .titleOnly (normTitle filename)

/-- The character class removed by clean_name. -/
def ILLEGAL_CHARS : List Char :=
  ['<', '>', ':', '"', '/', '\\', '|', '?', '*']

/-- Membership in the removed character class. -/
def isIllegalChar (c : Char) : Bool :=
  ILLEGAL_CHARS.contains c

/-- clean_name (source lines 84-86): re.sub of the class by the empty string,
i.e. keep exactly the characters outside the class, in order. -/
def clean_name (name : String) : String :=
  String.mk (name.data.filter (fun c => !(isIllegalChar c)))

/-! ### Effects, exceptions and the external environment -/

/-- Python logging levels used by the source. -/
inductive LogLevel where
  | info
  | warning
  | error

/-- Observable effects of one call: log lines, outgoing HTTP requests,
directory creation and the file move. -/
inductive Effect where
  | log : LogLevel → String → Effect
  | searchCall : String → Effect
  | movieDetailCall : Nat → Effect
  | tvDetailCall : Nat → Nat → Nat → Effect
  | mkdir : String → Effect
  | move : String → String → Effect

/-- Python exceptions that can escape the embedded functions. -/
inductive PyExn where
  | attributeError
  | osError

/-- Outcome of one requests.get call: the request itself raises
RequestException, or a response arrives whose raise_for_status would raise
(HTTP error status), or a successful response with the given parsed body. -/
inductive ReqOutcome (α : Type) where
  | transportFail
  | httpFail
  | success : α → ReqOutcome α

/-- One element of the search response list: id, the value of
media.get, and the name field used for TV shows. -/
structure SearchResult where
  id : Nat
  media_type : Option String
  name : String

/-- Body of a movie detail response: the fields read by process_file. -/
structure MovieDetails where
  title : String
  release_date : String

/-- Body of an episode detail response: the fields read by process_file. -/
structure TvDetails where
  season_number : Nat
  episode_number : Nat
  air_date : String

/-- The environment of one process_file call: configuration values and the
fixed outcome of each external interaction. -/
structure Env where
  apiKey : Option String
  movieDir : String
  tvShowDir : String
  searchResp : ReqOutcome (List SearchResult)
  movieDetailResp : ReqOutcome MovieDetails
  tvDetailResp : ReqOutcome TvDetails
  moveOk : Bool

/-- The module-level configuration read by start_monitoring. -/
structure Config where
  apiKey : Option String
  sourceDir : Option String
  movieDir : Option String
  tvShowDir : Option String

/-- Python truthiness of an optional environment string: None and the empty
string are falsy. -/
def pyTruthyOpt : Option String → Bool
  | none => false
  | some s => s != ""

/-! ### The TMDb API functions -/

/-- search_media (source lines 23-35).  A missing or placeholder key is
reported and yields None.  Otherwise the request is issued; a transport
failure is caught as RequestException and yields None, but any obtained
response hits the nonexistent method raise_for_for_status on line 31, raising
AttributeError, which the except clause for RequestException does not catch. -/
def search_media (apiKey : Option String) (resp : ReqOutcome (List SearchResult))
    (title : String) : List Effect × Except PyExn (Option (List SearchResult)) :=
  if pyTruthyOpt apiKey = false ∨ apiKey = some "your_api_key_here" then
    ([Effect.log LogLevel.error
        "TMDb API key is not configured. Please set it in the .env file."],
     Except.ok none)
  else
    match resp with
    | ReqOutcome.transportFail =>
        ([Effect.searchCall title,
          Effect.log LogLevel.error "Error searching TMDb"], Except.ok none)
    | ReqOutcome.httpFail =>
        ([Effect.searchCall title], Except.error PyExn.attributeError)
    | ReqOutcome.success _ =>
        ([Effect.searchCall title], Except.error PyExn.attributeError)

/-- get_movie_details (source lines 37-46): any RequestException, from the
request or from raise_for_status, is caught, logged at error level, and None
is returned; a successful response returns its body. -/
def get_movie_details (resp : ReqOutcome MovieDetails) (movie_id : Nat) :
    List Effect × Option MovieDetails :=
  match resp with
  | ReqOutcome.transportFail =>
      ([Effect.movieDetailCall movie_id,
        Effect.log LogLevel.error "Error getting movie details"], none)
  | ReqOutcome.httpFail =>
      ([Effect.movieDetailCall movie_id,
        Effect.log LogLevel.error "Error getting movie details"], none)
  | ReqOutcome.success d => ([Effect.movieDetailCall movie_id], some d)

/-- get_tv_show_details (source lines 48-58): any RequestException, from the
request or from raise_for_status, is caught, logged as a warning, and None is
returned; a successful response returns its body. -/
def get_tv_show_details (resp : ReqOutcome TvDetails) (tv_id season episode : Nat) :
    List Effect × Option TvDetails :=
  match resp with
  | ReqOutcome.transportFail =>
      ([Effect.tvDetailCall tv_id season episode,
        Effect.log LogLevel.warning
          ("Could not get TV show details for S" ++ Nat.repr season ++
           "E" ++ Nat.repr episode)], none)
  | ReqOutcome.httpFail =>
      ([Effect.tvDetailCall tv_id season episode,
        Effect.log LogLevel.warning
          ("Could not get TV show details for S" ++ Nat.repr season ++
           "E" ++ Nat.repr episode)], none)
  | ReqOutcome.success d => ([Effect.tvDetailCall tv_id season episode], some d)

/-! ### process_file and start_monitoring -/

/-- The module-level extension allow-list (source line 17). -/
def VIDEO_EXTENSIONS : List String :=
  [".mkv", ".mp4", ".avi", ".mov"]

/-- The movie arm of process_file (source lines 116-125): fetch the detail;
if present, build the destination from the sanitized detail title, the first
four characters of release_date and the original extension, log, and move.
The move is not wrapped in a try block, so a failing move raises OSError. -/
def movieBranch (env : Env) (media : SearchResult)
    (file_path filename file_ext : String) : List Effect × Except PyExn Unit :=
  let r := get_movie_details env.movieDetailResp media.id
  match r.2 with
  | some movie_details =>
      let title := clean_name movie_details.title
      let year := strTakeN 4 movie_details.release_date
      let new_filename := title ++ "-" ++ year ++ file_ext
      let dest_path := pyJoin env.movieDir new_filename
      let effs := r.1 ++
        [Effect.log LogLevel.info
          ("Renaming and moving movie: " ++ filename ++ " -> " ++ dest_path)]
      if env.moveOk then (effs ++ [Effect.move file_path dest_path], Except.ok ())
      else (effs, Except.error PyExn.osError)
  | none => (r.1, Except.ok ())

/-- The TV arm of process_file (source lines 129-143), entered with the
season/episode numbers of the parse: fetch the episode detail; if present,
build the destination from the sanitized search-hit name, the detail's
season_number and episode_number zero-filled to width 2, the first four
characters of air_date and the original extension, create the season folder,
log, and move.  The move is not wrapped in a try block. -/
def tvBranch (env : Env) (media : SearchResult) (ps pe : Nat)
    (file_path filename file_ext : String) : List Effect × Except PyExn Unit :=
  let r := get_tv_show_details env.tvDetailResp media.id ps pe
  match r.2 with
  | some show_details =>
      let show_name := clean_name media.name
      let season_num := zfill 2 (Nat.repr show_details.season_number)
      let episode_num := zfill 2 (Nat.repr show_details.episode_number)
      let year := strTakeN 4 show_details.air_date
      let new_filename :=
        show_name ++ ".s" ++ season_num ++ "e" ++ episode_num ++ "-" ++ year ++ file_ext
      let season_folder := pyJoin (pyJoin env.tvShowDir show_name) ("Season " ++ season_num)
      let dest_path := pyJoin season_folder new_filename
      let effs := r.1 ++
        [Effect.mkdir season_folder,
         Effect.log LogLevel.info
           ("Renaming and moving TV show: " ++ filename ++ " -> " ++ dest_path)]
      if env.moveOk then (effs ++ [Effect.move file_path dest_path], Except.ok ())
      else (effs, Except.error PyExn.osError)
  | none => (r.1, Except.ok ())

/-- process_file (source lines 89-145): skip non-video extensions, parse the
stem, skip on empty title, search, then dispatch on the media_type of the
first hit.  An exception raised by a callee propagates, as in the source
where no try block surrounds these calls. -/
def process_file (env : Env) (file_path : String) : List Effect × Except PyExn Unit :=
  let filename := basename file_path
  let file_ext := (splitext filename).2
  if file_ext ∉ VIDEO_EXTENSIONS then
    ([Effect.log LogLevel.info ("Skipping non-video file: " ++ filename)], Except.ok ())
  else
    let l1 : List Effect :=
      [Effect.log LogLevel.info ("Processing video file: " ++ filename)]
    let parsed_info := parse_filename (splitext filename).1
    if parsed_info.title = "" then
      (l1 ++ [Effect.log LogLevel.warning ("Could not parse title from: " ++ filename)],
       Except.ok ())
    else
      let sr := search_media env.apiKey env.searchResp parsed_info.title
      match sr.2 with
      | Except.error ex => (l1 ++ sr.1, Except.error ex)
      | Except.ok none =>
          (l1 ++ sr.1 ++
            [Effect.log LogLevel.warning ("No search results for: " ++ parsed_info.title)],
           Except.ok ())
      | Except.ok (some []) =>
          (l1 ++ sr.1 ++
            [Effect.log LogLevel.warning ("No search results for: " ++ parsed_info.title)],
           Except.ok ())
      | Except.ok (some (media :: _)) =>
          if media.media_type = some "movie" then
            let br := movieBranch env media file_path filename file_ext
            (l1 ++ sr.1 ++ br.1, br.2)
          else if media.media_type = some "tv" then
            match parsed_info with
            | ParsedInfo.episode _ s e =>
                let br := tvBranch env media s e file_path filename file_ext
                (l1 ++ sr.1 ++ br.1, br.2)
            | _ =>
                (l1 ++ sr.1 ++
                  [Effect.log LogLevel.warning
                    ("Could not determine season/episode for TV show: " ++ filename)],
                 Except.ok ())
          else (l1 ++ sr.1, Except.ok ())

/-- The startup configuration check of start_monitoring (source line 162):
Python all() over the four module-level values, i.e. their conjoined
truthiness. -/
def start_monitoring_check (cfg : Config) : Bool :=
  pyTruthyOpt cfg.apiKey && pyTruthyOpt cfg.sourceDir &&
    pyTruthyOpt cfg.movieDir && pyTruthyOpt cfg.tvShowDir

/-- start_monitoring (source lines 158-182) up to the point where the
observer loop begins: on a failed configuration check it logs an error and
returns without monitoring; otherwise it creates the destination roots and
starts monitoring.  The Bool records whether monitoring started. -/
def start_monitoring (cfg : Config) : List Effect × Bool :=
  if start_monitoring_check cfg = true then
    ([Effect.mkdir (cfg.movieDir.getD ""),
      Effect.mkdir (cfg.tvShowDir.getD ""),
      Effect.log LogLevel.info
        ("Starting to monitor directory: " ++ cfg.sourceDir.getD "")], true)
  else
    ([Effect.log LogLevel.error
        "Missing environment variables. Please check your .env file."], false)

/-! ### Soundness of the embedded regular-expression matchers -/

/-- A character of the class [eE] is not a digit. -/
theorem isE_not_digit {c : Char} (h : isE c = true) : pyIsDigit c = false := by
  rcases Bool.or_eq_true _ _ |>.mp h with h1 | h1
  · rw [decide_eq_true_iff] at h1; subst h1; decide
  · rw [decide_eq_true_iff] at h1; subst h1; decide

/-- A successful matchEp consumes an [eE] character followed by one or two
digits whose value is the returned episode number. -/
theorem matchEp_sound {cs : List Char} {n : Nat} (h : matchEp cs = some n) :
    ∃ e0 ed rest, cs = e0 :: (ed ++ rest) ∧ isE e0 = true ∧ ed ≠ [] ∧
      ed.length ≤ 2 ∧ (∀ c ∈ ed, pyIsDigit c = true) ∧ n = digitsVal ed := by
  match cs with
  | [] => simp [matchEp] at h
  | [e] => simp [matchEp] at h
  | [e, d1] =>
      rw [matchEp] at h
      split_ifs at h with h1
      · rw [Bool.and_eq_true] at h1
        refine ⟨e, [d1], [], rfl, h1.1, by simp, by simp, ?_, ?_⟩
        · intro c hc; simp at hc; subst hc; exact h1.2
        · exact (Option.some.injEq _ _ ▸ h).symm
  | e :: d1 :: d2 :: rest =>
      rw [matchEp] at h
      split_ifs at h with h1 h2 h3
      · rw [Bool.and_eq_true] at h2
        refine ⟨e, [d1, d2], rest, rfl, h1, by simp, by simp, ?_, ?_⟩
        · intro c hc; simp at hc
          rcases hc with hc | hc <;> subst hc
          · exact h2.1
          · exact h2.2
        · exact (Option.some.injEq _ _ ▸ h).symm
      · refine ⟨e, [d1], d2 :: rest, rfl, h1, by simp, by simp, ?_, ?_⟩
        · intro c hc; simp at hc; subst hc; exact h3
        · exact (Option.some.injEq _ _ ▸ h).symm

/-- A successful matchSEAt consumes an [sS] character, one or two digits whose
value is the season, and then an episode tail accepted by matchEp. -/
theorem matchSEAt_sound {cs : List Char} {s e : Nat}
    (h : matchSEAt cs = some (s, e)) :
    ∃ s0 sd rest, cs = s0 :: (sd ++ rest) ∧ isSE s0 = true ∧ sd ≠ [] ∧
      sd.length ≤ 2 ∧ (∀ c ∈ sd, pyIsDigit c = true) ∧ s = digitsVal sd ∧
      matchEp rest = some e := by
  match cs with
  | [] => simp [matchSEAt] at h
  | [s0] => simp [matchSEAt] at h
  | [s0, d1] => simp [matchSEAt] at h
  | s0 :: d1 :: d2 :: rest2 =>
      rw [matchSEAt] at h
      split_ifs at h with h1 h2 h3
      · rw [Bool.and_eq_true] at h2
        cases h4 : matchEp rest2 with
        | some ep =>
            rw [h4] at h
            simp only [Option.some.injEq, Prod.mk.injEq] at h
            refine ⟨s0, [d1, d2], rest2, rfl, h1, by simp, by simp, ?_, h.1.symm, ?_⟩
            · intro c hc; simp at hc
              rcases hc with hc | hc <;> subst hc
              · exact h2.1
              · exact h2.2
            · rw [h4, h.2]
        | none =>
            rw [h4] at h
            cases h5 : matchEp (d2 :: rest2) with
            | some ep =>
                rw [h5] at h
                simp only [Option.some.injEq, Prod.mk.injEq] at h
                refine ⟨s0, [d1], d2 :: rest2, rfl, h1, by simp, by simp, ?_, h.1.symm, ?_⟩
                · intro c hc; simp at hc; subst hc; exact h2.1
                · rw [h5, h.2]
            | none => rw [h5] at h; simp at h
      · cases h5 : matchEp (d2 :: rest2) with
        | some ep =>
            rw [h5] at h
            simp only [Option.some.injEq, Prod.mk.injEq] at h
            refine ⟨s0, [d1], d2 :: rest2, rfl, h1, by simp, by simp, ?_, h.1.symm, ?_⟩
            · intro c hc; simp at hc; subst hc; exact h3
            · rw [h5, h.2]
        | none => rw [h5] at h; simp at h

/-- Soundness and leftmostness of the season/episode scan: a result (j, s, e)
of the scan started with counter i means position j holds a match with
captures (s, e) and no earlier position holds any match. -/
theorem findSEAux_sound (cs : List Char) : ∀ i j s e : Nat,
    findSEAux i cs = some (j, s, e) →
    i ≤ j ∧ matchSEAt (cs.drop (j - i)) = some (s, e) ∧
      ∀ k, k < j - i → matchSEAt (cs.drop k) = none := by
  induction cs with
  | nil => intro i j s e h; simp [findSEAux] at h
  | cons c rest ih =>
      intro i j s e h
      rw [findSEAux] at h
      cases h0 : matchSEAt (c :: rest) with
      | some se =>
          obtain ⟨s1, e1⟩ := se
          rw [h0] at h
          simp at h
          obtain ⟨hj, hs, he⟩ := h
          subst hj; subst hs; subst he
          refine ⟨Nat.le_refl i, ?_, ?_⟩
          · simpa using h0
          · intro k hk
            exact absurd hk (by omega)
      | none =>
          rw [h0] at h
          obtain ⟨h1, h2, h3⟩ := ih (i + 1) j s e h
          refine ⟨by omega, ?_, ?_⟩
          · have hd : (c :: rest).drop (j - i) = rest.drop (j - (i + 1)) := by
              have hj : j - i = (j - (i + 1)) + 1 := by omega
              rw [hj]; rfl
            rw [hd]; exact h2
          · intro k hk
            cases k with
            | zero => simpa using h0
            | succ k2 =>
                have hd : (c :: rest).drop (k2 + 1) = rest.drop k2 := rfl
                rw [hd]
                exact h3 k2 (by omega)

/-- Completeness of the season/episode scan: if some position of the list
holds a match, the scan returns a result. -/
theorem findSEAux_isSome (cs : List Char) : ∀ i m : Nat,
    (matchSEAt (cs.drop m)).isSome = true → (findSEAux i cs).isSome = true := by
  induction cs with
  | nil => intro i m h; simp [matchSEAt] at h
  | cons c rest ih =>
      intro i m h
      rw [findSEAux]
      cases h0 : matchSEAt (c :: rest) with
      | some se => simp
      | none =>
          cases m with
          | zero => rw [List.drop_zero, h0] at h; simp at h
          | succ m2 => exact ih (i + 1) m2 h


/-- A successful take4digits returns the four leading characters, all digits. -/
theorem take4digits_sound {cs ds : List Char} (h : take4digits cs = some ds) :
    ∃ rest, cs = ds ++ rest ∧ ds.length = 4 ∧ ∀ c ∈ ds, pyIsDigit c = true := by
  match cs with
  | [] => simp [take4digits] at h
  | [a] => simp [take4digits] at h
  | [a, b] => simp [take4digits] at h
  | [a, b, c] => simp [take4digits] at h
  | a :: b :: c :: d :: rest =>
      rw [take4digits] at h
      split_ifs at h with h1
      simp only [Bool.and_eq_true] at h1
      simp only [Option.some.injEq] at h
      subst h
      refine ⟨rest, rfl, rfl, ?_⟩
      intro x hx
      simp at hx
      rcases hx with hx | hx | hx | hx <;> subst hx
      · exact h1.1.1.1
      · exact h1.1.1.2
      · exact h1.1.2
      · exact h1.2

/-- A successful matchYearAt returns four leading digits, possibly after an
opening parenthesis. -/
theorem matchYearAt_sound {cs ds : List Char} (h : matchYearAt cs = some ds) :
    ds.length = 4 ∧ (∀ c ∈ ds, pyIsDigit c = true) ∧
      ∃ rest, cs = ds ++ rest ∨ cs = '(' :: (ds ++ rest) := by
  match cs with
  | [] => simp [matchYearAt] at h
  | c :: rest =>
      rw [matchYearAt] at h
      split_ifs at h with h1
      · obtain ⟨r2, hr, hlen, hdig⟩ := take4digits_sound h
        exact ⟨hlen, hdig, r2, Or.inr (by rw [h1, hr])⟩
      · obtain ⟨r2, hr, hlen, hdig⟩ := take4digits_sound h
        exact ⟨hlen, hdig, r2, Or.inl hr⟩

/-- Soundness and leftmostness of the year scan. -/
theorem findYearAux_sound (cs : List Char) : ∀ (i j : Nat) (y : String),
    findYearAux i cs = some (j, y) →
    i ≤ j ∧ (∃ ds, matchYearAt (cs.drop (j - i)) = some ds ∧ y = String.mk ds) ∧
      ∀ k, k < j - i → matchYearAt (cs.drop k) = none := by
  induction cs with
  | nil => intro i j y h; simp [findYearAux] at h
  | cons c rest ih =>
      intro i j y h
      rw [findYearAux] at h
      cases h0 : matchYearAt (c :: rest) with
      | some ds =>
          rw [h0] at h
          simp at h
          obtain ⟨hj, hy⟩ := h
          subst hj
          refine ⟨Nat.le_refl i, ⟨ds, ?_, hy.symm⟩, ?_⟩
          · simpa using h0
          · intro k hk
            exact absurd hk (by omega)
      | none =>
          rw [h0] at h
          obtain ⟨h1, h2, h3⟩ := ih (i + 1) j y h
          refine ⟨by omega, ?_, ?_⟩
          · have hd : (c :: rest).drop (j - i) = rest.drop (j - (i + 1)) := by
              have hj : j - i = (j - (i + 1)) + 1 := by omega
              rw [hj]; rfl
            rw [hd]; exact h2
          · intro k hk
            cases k with
            | zero => simpa using h0
            | succ k2 =>
                have hd : (c :: rest).drop (k2 + 1) = rest.drop k2 := rfl
                rw [hd]
                exact h3 k2 (by omega)

/-- Completeness of the year scan: if some position of the list holds a year
match, the scan returns a result. -/
theorem findYearAux_isSome (cs : List Char) : ∀ i m : Nat,
    (matchYearAt (cs.drop m)).isSome = true → (findYearAux i cs).isSome = true := by
  induction cs with
  | nil => intro i m h; simp [matchYearAt] at h
  | cons c rest ih =>
      intro i m h
      rw [findYearAux]
      cases h0 : matchYearAt (c :: rest) with
      | some ds => simp
      | none =>
          cases m with
          | zero => rw [List.drop_zero, h0] at h; simp at h
          | succ m2 => exact ih (i + 1) m2 h

/-- A digit character is not an opening parenthesis. -/
theorem pyIsDigit_ne_paren {c : Char} (h : pyIsDigit c = true) : c ≠ '(' := by
  intro hc
  subst hc
  simp [pyIsDigit] at h

/-- A list starting with four digits is accepted by matchYearAt. -/
theorem matchYearAt_isSome_of_digits {ds r : List Char} (hlen : ds.length = 4)
    (hdig : ∀ c ∈ ds, pyIsDigit c = true) :
    (matchYearAt (ds ++ r)).isSome = true := by
  match ds, hlen with
  | [a, b, c, d], _ =>
      have ha : pyIsDigit a = true := hdig a (by simp)
      have hb : pyIsDigit b = true := hdig b (by simp)
      have hc : pyIsDigit c = true := hdig c (by simp)
      have hd : pyIsDigit d = true := hdig d (by simp)
      have hne : a ≠ '(' := pyIsDigit_ne_paren ha
      simp only [List.cons_append, List.nil_append]
      rw [matchYearAt, if_neg hne, take4digits, ha, hb, hc, hd]
      simp

/-- An [eE] character followed by one or two digits is accepted by matchEp. -/
theorem matchEp_isSome_of_marker {e0 : Char} {ed r : List Char}
    (he : isE e0 = true) (hne : ed ≠ []) (hlen : ed.length ≤ 2)
    (hdig : ∀ c ∈ ed, pyIsDigit c = true) :
    (matchEp (e0 :: (ed ++ r))).isSome = true := by
  rcases ed with _ | ⟨b1, _ | ⟨b2, _ | ⟨b3, tl⟩⟩⟩
  · exact absurd rfl hne
  · have hb1 : pyIsDigit b1 = true := hdig b1 (by simp)
    cases r with
    | nil => simp [matchEp, he, hb1]
    | cons c r2 => cases hc : pyIsDigit c <;> simp [matchEp, he, hb1, hc]
  · have hb1 : pyIsDigit b1 = true := hdig b1 (by simp)
    have hb2 : pyIsDigit b2 = true := hdig b2 (by simp)
    simp [matchEp, he, hb1, hb2]
  · simp at hlen

/-- A full season/episode marker is accepted by matchSEAt at its start. -/
theorem matchSEAt_isSome_of_marker {s0 e0 : Char} {sd ed r : List Char}
    (hs : isSE s0 = true) (he : isE e0 = true)
    (hsdne : sd ≠ []) (hsdlen : sd.length ≤ 2)
    (hsdig : ∀ c ∈ sd, pyIsDigit c = true)
    (hedne : ed ≠ []) (hedlen : ed.length ≤ 2)
    (hedig : ∀ c ∈ ed, pyIsDigit c = true) :
    (matchSEAt (s0 :: (sd ++ (e0 :: (ed ++ r))))).isSome = true := by
  have hep := matchEp_isSome_of_marker (r := r) he hedne hedlen hedig
  obtain ⟨ep, hep2⟩ := Option.isSome_iff_exists.mp hep
  rcases sd with _ | ⟨a1, _ | ⟨a2, _ | ⟨a3, tl⟩⟩⟩
  · exact absurd rfl hsdne
  · have ha1 : pyIsDigit a1 = true := hsdig a1 (by simp)
    have he0d : pyIsDigit e0 = false := isE_not_digit he
    simp [matchSEAt, hs, ha1, he0d, hep2]
  · have ha1 : pyIsDigit a1 = true := hsdig a1 (by simp)
    have ha2 : pyIsDigit a2 = true := hsdig a2 (by simp)
    simp [matchSEAt, hs, ha1, ha2, hep2]
  · simp at hsdlen

/-- zfill leaves a string that is already at least as wide unchanged. -/
theorem zfill_of_le {w : Nat} {s : String} (h : w ≤ s.length) : zfill w s = s := by
  rw [zfill, if_pos h]

/-- The length of a zero-filled string is at least the requested width. -/
theorem le_zfill_length (w : Nat) (s : String) : w ≤ (zfill w s).length := by
  rw [zfill]
  split_ifs with h
  · exact h
  · have h3 : (String.mk (List.replicate (w - s.length) '0')).length = w - s.length := by
      show (List.replicate (w - s.length) '0').length = w - s.length
      rw [List.length_replicate]
    have h2 : (String.mk (List.replicate (w - s.length) '0') ++ s).length
        = (w - s.length) + s.length := by
      rw [String.length_append, h3]
    rw [h2]
    omega

/-! ### The claims -/

/-- Claim C1 (code-bug evidence).  The claim states that process_file returns
normally for every outcome of the provider and mover.  In the source, any
search request that obtains an HTTP response reaches line 31, whose call to
the nonexistent method raise_for_for_status raises AttributeError; the except
clause catches only RequestException, so the exception escapes process_file.
Here, on a well-formed episode file whose search receives an HTTP error
response (an outcome the claim requires to be handled by a log and a normal
return), the call ends in an escaping exception and no terminal state is
logged. -/
theorem c1_process_file_raises_attribute_error :
    process_file
        (⟨some "k", "/movies", "/tv", ReqOutcome.httpFail, ReqOutcome.transportFail,
          ReqOutcome.transportFail, true⟩ : Env)
        "/downloads/show.s01e02.mkv" =
      ([Effect.log LogLevel.info "Processing video file: show.s01e02.mkv",
        Effect.searchCall "show"],
       Except.error PyExn.attributeError) := rfl

/-- Claim C2 (code-bug evidence).  With exactly the provider responses of the
claim, organizing inception.2010.mkv does not move the file: search_media
raises AttributeError on source line 31 before the results are read, so
process_file ends in an escaping exception with no move effect.  The second
conjunct shows that the movie arm of process_file, had it been reached with
the same detail response, builds exactly the claimed destination
{movie root, Inception-2010.mkv}, whose year is the first four characters of
release_date. -/
theorem c2_inception_outcome :
    process_file
        (⟨some "k", "/movies", "/tv",
          ReqOutcome.success [⟨1, some "movie", "Inception"⟩],
          ReqOutcome.success ⟨"Inception", "2010-07-16"⟩,
          ReqOutcome.transportFail, true⟩ : Env)
        "inception.2010.mkv" =
      ([Effect.log LogLevel.info "Processing video file: inception.2010.mkv",
        Effect.searchCall "inception"],
       Except.error PyExn.attributeError)
    ∧ movieBranch
        (⟨some "k", "/movies", "/tv",
          ReqOutcome.success [⟨1, some "movie", "Inception"⟩],
          ReqOutcome.success ⟨"Inception", "2010-07-16"⟩,
          ReqOutcome.transportFail, true⟩ : Env)
        (⟨1, some "movie", "Inception"⟩ : SearchResult)
        "inception.2010.mkv" "inception.2010.mkv" ".mkv" =
      ([Effect.movieDetailCall 1,
        Effect.log LogLevel.info
          "Renaming and moving movie: inception.2010.mkv -> /movies/Inception-2010.mkv",
        Effect.move "inception.2010.mkv" "/movies/Inception-2010.mkv"],
       Except.ok ()) :=
  ⟨rfl, rfl⟩

/-- Claim C3 (confirmed).  For every resolved TV episode (a successful detail
response d) the destination directory is
tvShowDir/(sanitized show)/Season SS and the destination filename is
(sanitized show).sSSeEE-(year)(ext), with SS and EE the season_number and
episode_number of the detail response d, not the parsed numbers ps and pe,
each zero-filled to width at least 2 (3 and 7 give s03e07) and never
truncated (a three-digit number such as 123 keeps its natural width). -/
theorem c3_tv_destination (env : Env) (media : SearchResult) (ps pe : Nat)
    (fp fn ext : String) (d : TvDetails)
    (h : env.tvDetailResp = ReqOutcome.success d) (hm : env.moveOk = true) :
    tvBranch env media ps pe fp fn ext =
      ([Effect.tvDetailCall media.id ps pe,
        Effect.mkdir (pyJoin (pyJoin env.tvShowDir (clean_name media.name))
          ("Season " ++ zfill 2 (Nat.repr d.season_number))),
        Effect.log LogLevel.info
          ("Renaming and moving TV show: " ++ fn ++ " -> " ++
            pyJoin (pyJoin (pyJoin env.tvShowDir (clean_name media.name))
                ("Season " ++ zfill 2 (Nat.repr d.season_number)))
              (clean_name media.name ++ ".s" ++ zfill 2 (Nat.repr d.season_number) ++
                "e" ++ zfill 2 (Nat.repr d.episode_number) ++ "-" ++
                strTakeN 4 d.air_date ++ ext)),
        Effect.move fp
          (pyJoin (pyJoin (pyJoin env.tvShowDir (clean_name media.name))
              ("Season " ++ zfill 2 (Nat.repr d.season_number)))
            (clean_name media.name ++ ".s" ++ zfill 2 (Nat.repr d.season_number) ++
              "e" ++ zfill 2 (Nat.repr d.episode_number) ++ "-" ++
              strTakeN 4 d.air_date ++ ext))],
       Except.ok ())
    ∧ zfill 2 (Nat.repr 3) = "03" ∧ zfill 2 (Nat.repr 7) = "07"
    ∧ zfill 2 (Nat.repr 123) = "123"
    ∧ (∀ s : String, 2 ≤ s.length → zfill 2 s = s)
    ∧ (∀ s : String, 2 ≤ (zfill 2 s).length) := by
  refine ⟨?_, rfl, rfl, rfl, fun s h2 => zfill_of_le h2, fun s => le_zfill_length 2 s⟩
  simp [tvBranch, get_tv_show_details, h, hm]

/-- Witness for C3 at a concrete environment: parsed numbers 1 and 1 are
overridden by the detail response numbers 3 and 7. -/
theorem c3_tv_destination_witness :
    tvBranch
        (⟨some "k", "/movies", "/tv", ReqOutcome.transportFail, ReqOutcome.transportFail,
          ReqOutcome.success ⟨3, 7, "2008-01-20"⟩, true⟩ : Env)
        (⟨42, some "tv", "Breaking Bad"⟩ : SearchResult) 1 1
        "/downloads/x.mkv" "x.mkv" ".mkv" =
      ([Effect.tvDetailCall 42 1 1,
        Effect.mkdir "/tv/Breaking Bad/Season 03",
        Effect.log LogLevel.info
          "Renaming and moving TV show: x.mkv -> /tv/Breaking Bad/Season 03/Breaking Bad.s03e07-2008.mkv",
        Effect.move "/downloads/x.mkv"
          "/tv/Breaking Bad/Season 03/Breaking Bad.s03e07-2008.mkv"],
       Except.ok ()) :=
  (c3_tv_destination _ _ 1 1 "/downloads/x.mkv" "x.mkv" ".mkv"
    (⟨3, 7, "2008-01-20"⟩ : TvDetails) rfl rfl).1

/-- Claim C4 counterexample.  The claim says underscores in the text before
the season/episode marker are replaced by spaces.  parse_filename only
replaces dots (source line 70), so the stem a_b.s01e02 keeps its underscore:
the title is a_b, not the a b the claim requires. -/
theorem c4_counterexample_underscore :
    parse_filename "a_b.s01e02" = ParsedInfo.episode "a_b" 1 2 ∧ "a_b" ≠ "a b" :=
  ⟨rfl, by decide⟩

/-- Claim C4 (amended).  For every stem, lowering it first: (i) whenever the
season/episode scan finds the leftmost marker at position i with captured
integers s and e, parse_filename returns the episode guess with season s,
episode e (episode branch taking priority, whatever year tokens occur), and
title equal to the prefix before the marker with dots (only) replaced by
spaces and stripped; the scan result really is a marker — an [sS] character,
one or two digits valuing s, an [eE] character, one or two digits valuing e —
and no earlier position carries a marker; and (ii) conversely, whenever the
lowered stem contains a marker anywhere, the scan succeeds. -/
theorem c4_episode_parse (stem : String) :
    (∀ i s e : Nat, findSE (asciiLower stem).data = some (i, s, e) →
      parse_filename stem =
        ParsedInfo.episode (normTitle (strTakeN i (asciiLower stem))) s e
      ∧ (∃ s0 sd e0 ed rest,
          (asciiLower stem).data.drop i = s0 :: (sd ++ (e0 :: (ed ++ rest)))
          ∧ isSE s0 = true ∧ isE e0 = true
          ∧ sd ≠ [] ∧ sd.length ≤ 2 ∧ ed ≠ [] ∧ ed.length ≤ 2
          ∧ (∀ c ∈ sd, pyIsDigit c = true) ∧ (∀ c ∈ ed, pyIsDigit c = true)
          ∧ s = digitsVal sd ∧ e = digitsVal ed)
      ∧ (∀ k, k < i → matchSEAt ((asciiLower stem).data.drop k) = none))
    ∧ (∀ (pre : List Char) (s0 : Char) (sd : List Char) (e0 : Char)
        (ed r2 : List Char),
        (asciiLower stem).data = pre ++ (s0 :: (sd ++ (e0 :: (ed ++ r2)))) →
        isSE s0 = true → isE e0 = true → sd ≠ [] → sd.length ≤ 2 →
        ed ≠ [] → ed.length ≤ 2 → (∀ c ∈ sd, pyIsDigit c = true) →
        (∀ c ∈ ed, pyIsDigit c = true) →
        (findSE (asciiLower stem).data).isSome = true) := by
  constructor
  · intro i s e h
    obtain ⟨-, h2, h3⟩ := findSEAux_sound (asciiLower stem).data 0 i s e h
    rw [Nat.sub_zero] at h2 h3
    refine ⟨?_, ?_, h3⟩
    · simp [parse_filename, h, normTitle]
    · obtain ⟨s0, sd, rest1, hcs, hs0, hsdne, hsdlen, hsdd, hsval, hep⟩ :=
        matchSEAt_sound h2
      obtain ⟨e0, ed, rest, hrest1, he0, hedne, hedlen, hedd, heval⟩ :=
        matchEp_sound hep
      exact ⟨s0, sd, e0, ed, rest, by rw [hcs, hrest1], hs0, he0, hsdne, hsdlen,
        hedne, hedlen, hsdd, hedd, hsval, heval⟩
  · intro pre s0 sd e0 ed r2 hdec hs0 he0 hsdne hsdlen hedne hedlen hsdd hedd
    apply findSEAux_isSome (asciiLower stem).data 0 pre.length
    rw [hdec, List.drop_left]
    exact matchSEAt_isSome_of_marker hs0 he0 hsdne hsdlen hsdd hedne hedlen hedd

/-- Witness for C4 at a concrete stem, instantiating the amended theorem. -/
theorem c4_episode_parse_witness :
    parse_filename "breaking.bad.s01e01" = ParsedInfo.episode "breaking bad" 1 1 :=
  (((c4_episode_parse "breaking.bad.s01e01").1 13 1 1 rfl).1).trans rfl

/-- Claim C5 (confirmed).  For every stem whose lowering contains no
season/episode marker: (i) whenever the year scan finds its leftmost match at
position i with captured string y, parse_filename returns the movie guess
with year y and title the normalized prefix before the year token (dots
replaced by spaces, stripped; the stem was lowercased first); the captured y
really is four consecutive digits occurring at i, possibly after an opening
parenthesis, and no earlier position carries a year match; and (ii)
conversely, whenever the lowered stem contains four consecutive digits
anywhere, the year scan succeeds. -/
theorem c5_movie_year (stem : String)
    (hse : findSE (asciiLower stem).data = none) :
    (∀ (i : Nat) (y : String), findYear (asciiLower stem).data = some (i, y) →
      parse_filename stem =
        ParsedInfo.movie (normTitle (strTakeN i (asciiLower stem))) y
      ∧ (∃ ds rest, y = String.mk ds ∧ ds.length = 4
          ∧ (∀ c ∈ ds, pyIsDigit c = true)
          ∧ ((asciiLower stem).data.drop i = ds ++ rest
             ∨ (asciiLower stem).data.drop i = '(' :: (ds ++ rest)))
      ∧ (∀ k, k < i → matchYearAt ((asciiLower stem).data.drop k) = none))
    ∧ (∀ (pre ds r2 : List Char),
        (asciiLower stem).data = pre ++ (ds ++ r2) → ds.length = 4 →
        (∀ c ∈ ds, pyIsDigit c = true) →
        (findYear (asciiLower stem).data).isSome = true) := by
  constructor
  · intro i y h
    obtain ⟨-, h2, h3⟩ := findYearAux_sound (asciiLower stem).data 0 i y h
    rw [Nat.sub_zero] at h2 h3
    obtain ⟨ds, hm, hy⟩ := h2
    refine ⟨?_, ?_, h3⟩
    · simp [parse_filename, hse, h, normTitle]
    · obtain ⟨hlen, hdig, rest, hor⟩ := matchYearAt_sound hm
      exact ⟨ds, rest, hy, hlen, hdig, hor⟩
  · intro pre ds r2 hdec hlen hdig
    apply findYearAux_isSome (asciiLower stem).data 0 pre.length
    rw [hdec, List.drop_left]
    exact matchYearAt_isSome_of_digits hlen hdig

/-- Witness for C5 at a concrete stem, instantiating the theorem. -/
theorem c5_movie_year_witness :
    parse_filename "inception.2010" = ParsedInfo.movie "inception" "2010" :=
  (((c5_movie_year "inception.2010" rfl).1 10 "2010" rfl).1).trans rfl

/-- Claim C6 (confirmed).  For every string x, clean_name x holds no
character of the class removed by the regex of source line 86 (the characters
of ILLEGAL_CHARS), equals exactly the in-order filtering of x by that class
(so exactly those characters are removed and all others kept in order), is a
sublist of x, and is idempotent. -/
theorem c6_clean_name_properties (x : String) :
    (clean_name x).data.all (fun c => !(isIllegalChar c)) = true
    ∧ (clean_name x).data = x.data.filter (fun c => !(isIllegalChar c))
    ∧ List.Sublist (clean_name x).data x.data
    ∧ clean_name (clean_name x) = clean_name x
    ∧ ILLEGAL_CHARS = ['<', '>', ':', '"', '/', '\\', '|', '?', '*'] := by
  refine ⟨?_, rfl, List.filter_sublist _, ?_, rfl⟩
  · rw [List.all_eq_true]
    intro c hc
    exact (List.mem_filter.mp hc).2
  · show String.mk ((x.data.filter (fun c => !(isIllegalChar c))).filter
        (fun c => !(isIllegalChar c))) = String.mk (x.data.filter (fun c => !(isIllegalChar c)))
    congr 1
    rw [List.filter_filter]
    congr 1
    funext a
    rw [Bool.and_self]

/-- Claim C7 (confirmed).  When the episode detail fetch fails (the request
raises, or the response is an HTTP error so raise_for_status raises — both
RequestException, both caught on source line 55), the TV arm logs a
warning-level event, performs no move and no mkdir, and returns normally
(Except.ok: the outcome is the same soft skip as not-found, not an escaping
error). -/
theorem c7_tv_detail_failure_soft (env : Env) (media : SearchResult) (ps pe : Nat)
    (fp fn ext : String)
    (h : env.tvDetailResp = ReqOutcome.transportFail
         ∨ env.tvDetailResp = ReqOutcome.httpFail) :
    tvBranch env media ps pe fp fn ext =
      ([Effect.tvDetailCall media.id ps pe,
        Effect.log LogLevel.warning
          ("Could not get TV show details for S" ++ Nat.repr ps ++
           "E" ++ Nat.repr pe)],
       Except.ok ()) := by
  rcases h with h | h <;> simp [tvBranch, get_tv_show_details, h]

/-- Witness for C7: a simulated 404 on the episode detail fetch. -/
theorem c7_tv_detail_failure_witness :
    tvBranch
        (⟨some "k", "/m", "/t", ReqOutcome.transportFail, ReqOutcome.transportFail,
          ReqOutcome.httpFail, true⟩ : Env)
        (⟨9, some "tv", "X"⟩ : SearchResult) 1 2 "/d/x.mkv" "x.mkv" ".mkv" =
      ([Effect.tvDetailCall 9 1 2,
        Effect.log LogLevel.warning "Could not get TV show details for S1E2"],
       Except.ok ()) :=
  c7_tv_detail_failure_soft _ _ 1 2 "/d/x.mkv" "x.mkv" ".mkv" (Or.inr rfl)

/-- Claim C8 (confirmed).  For every environment and every path whose
extension is not in the allow-list, process_file emits exactly one skip log
line: no parse, no provider call, no mkdir and no move appear among the
effects, and the call returns normally. -/
theorem c8_non_video_skipped (env : Env) (path : String)
    (h : (splitext (basename path)).2 ∉ VIDEO_EXTENSIONS) :
    process_file env path =
      ([Effect.log LogLevel.info ("Skipping non-video file: " ++ basename path)],
       Except.ok ()) := by
  simp [process_file, h]

/-- Witness for C8 at a concrete non-video file. -/
theorem c8_non_video_skipped_witness :
    process_file
        (⟨some "k", "/m", "/t", ReqOutcome.transportFail, ReqOutcome.transportFail,
          ReqOutcome.transportFail, true⟩ : Env) "notes.txt" =
      ([Effect.log LogLevel.info "Skipping non-video file: notes.txt"],
       Except.ok ()) :=
  c8_non_video_skipped _ "notes.txt" (by decide)

/-- Claim C9 counterexample.  The claim says a missing or placeholder
credential is checked once, before monitoring starts.  With the placeholder
key your_api_key_here (a truthy string, so it passes the all() check of
source line 162), start_monitoring proceeds to start monitoring: the
placeholder is not a startup-checked fatal precondition. -/
theorem c9_counterexample_placeholder :
    (start_monitoring
        (⟨some "your_api_key_here", some "/downloads", some "/movies",
          some "/tv"⟩ : Config)).2 = true := rfl

/-- Claim C9 (amended).  A missing (unset or empty) credential is caught by
the startup check and prevents monitoring; the placeholder credential passes
the startup check and monitoring starts.  Both missing and placeholder
credentials are instead detected on every search call, which logs the
credential error at error level, issues no request, and returns None (so the
file is left in place). -/
theorem c9_credential_checks (k : Option String)
    (resp : ReqOutcome (List SearchResult)) (q : String) (sd md td : String)
    (hsd : sd ≠ "") (hmd : md ≠ "") (htd : td ≠ "")
    (hk : k = none ∨ k = some "" ∨ k = some "your_api_key_here") :
    (start_monitoring (⟨none, some sd, some md, some td⟩ : Config)).2 = false
    ∧ (start_monitoring (⟨some "", some sd, some md, some td⟩ : Config)).2 = false
    ∧ (start_monitoring
        (⟨some "your_api_key_here", some sd, some md, some td⟩ : Config)).2 = true
    ∧ search_media k resp q =
        ([Effect.log LogLevel.error
            "TMDb API key is not configured. Please set it in the .env file."],
         Except.ok none) := by
  refine ⟨rfl, rfl, ?_, ?_⟩
  · have hchk : start_monitoring_check
        (⟨some "your_api_key_here", some sd, some md, some td⟩ : Config) = true := by
      simp [start_monitoring_check, pyTruthyOpt, bne_iff_ne, hsd, hmd, htd]
    simp [start_monitoring, hchk]
  · rcases hk with rfl | rfl | rfl <;> rfl

/-- Witness for C9 at concrete configuration values. -/
theorem c9_credential_checks_witness :
    (start_monitoring (⟨none, some "/a", some "/b", some "/c"⟩ : Config)).2 = false
    ∧ (start_monitoring (⟨some "", some "/a", some "/b", some "/c"⟩ : Config)).2 = false
    ∧ (start_monitoring
        (⟨some "your_api_key_here", some "/a", some "/b", some "/c"⟩ : Config)).2 = true
    ∧ search_media (some "your_api_key_here") (ReqOutcome.success []) "x" =
        ([Effect.log LogLevel.error
            "TMDb API key is not configured. Please set it in the .env file."],
         Except.ok none) :=
  c9_credential_checks (some "your_api_key_here") (ReqOutcome.success []) "x"
    "/a" "/b" "/c" (by decide) (by decide) (by decide) (Or.inr (Or.inr rfl))

/-- Claim C10 (confirmed).  The allow-list is the literal lowercase list, the
membership test of source line 96 is plain string equality, and every file
whose extension is not verbatim in the list — in particular one differing
only in letter case, i.e. whose ASCII lowering is in the list while the
extension itself is not — is skipped with a single log line: no parse, no
provider call, no move. -/
theorem c10_case_sensitive_extension (env : Env) (path : String)
    (h1 : asciiLower ((splitext (basename path)).2) ∈ VIDEO_EXTENSIONS)
    (h2 : (splitext (basename path)).2 ∉ VIDEO_EXTENSIONS) :
    VIDEO_EXTENSIONS = [".mkv", ".mp4", ".avi", ".mov"]
    ∧ process_file env path =
        ([Effect.log LogLevel.info ("Skipping non-video file: " ++ basename path)],
         Except.ok ()) :=
  ⟨rfl, by simp [process_file, h2]⟩

/-- Witness for C10: an upper-case .MKV file is skipped. -/
theorem c10_case_sensitive_extension_witness :
    VIDEO_EXTENSIONS = [".mkv", ".mp4", ".avi", ".mov"]
    ∧ process_file
        (⟨some "k", "/m", "/t", ReqOutcome.transportFail, ReqOutcome.transportFail,
          ReqOutcome.transportFail, true⟩ : Env) "movie.MKV" =
        ([Effect.log LogLevel.info "Skipping non-video file: movie.MKV"],
         Except.ok ()) :=
  c10_case_sensitive_extension _ "movie.MKV" (by decide) (by decide)

end MediaOrganizer
